import Mathlib

/-!
Shallow embedding of the research-app pipeline (SvelteKit + Upstash workflow).

Source files embedded here:
* the research workflow handler (plan → search fan-out → blog fan-out →
  consolidate → webhook call), including its `sanitize` helper;
* the webhook receiver `POST` handler (secret check + cache write);
* the status-poll `GET` handler;
* the shared in-memory result store (`researchCache`, a JS `Map`).

JavaScript values that matter to the claims are modelled explicitly:
`undefined`/absent fields become `Option`, JSON documents become the `Json`
inductive below, JS `Map` becomes an insertion-ordered association list.
External network calls (LLM, search API) are modelled as oracles supplied in a
`PipelineEnv`: the pipeline is a pure function of the responses it receives.
-/

namespace ResearchApp

/-! ### JSON values -/

/-- A parsed JSON document (the output type of `JSON.parse`).  Numbers are
modelled as integers; no claim depends on numeric values. -/
inductive Json where
  | null
  | bool (b : Bool)
  | num (n : Int)
  | str (s : String)
  | arr (elems : List Json)
  | obj (fields : List (String × Json))

/-- Property lookup on a parsed JSON object.  `JSON.parse` keeps the last of
any duplicated keys, so the lookup returns the last matching field. -/
def lookupField (fields : List (String × Json)) (key : String) : Option Json :=
  match fields with
  | [] => none
  | (k, v) :: rest =>
    match lookupField rest key with
    | some w => some w
    | none => if k = key then some v else none

/-- Property access `j[key]` on an arbitrary JSON value: objects look the key
up, every other value yields `undefined` (`none`).  (`null.key` throws in JS;
callers that can receive `null` handle it separately.) -/
def jsonField (j : Json) (key : String) : Option Json :=
  match j with
  | .obj fields => lookupField fields key
  | _ => none

/-- JavaScript truthiness of a parsed JSON value (`undefined` never occurs
inside a parsed document). -/
def jsTruthy (j : Json) : Bool :=
  match j with
  | .null => false
  | .bool b => b
  | .num n => n != 0
  | .str s => s != ""
  | .arr _ => true
  | .obj _ => true

/-! ### The `sanitize` helper

Source (identical in both workflow files):
```
function sanitize(str: string | undefined): string {
  if (!str) return "";
  return str.replace(/[‘’“”]/g, '')
            .replace(/[^\x00-\x7F]/g, '').trim();
}
```
-/

/-- The four smart-quote code points removed by the first `replace`. -/
def isSmartQuote (c : Char) : Bool :=
  c = '‘' || c = '’' || c = '“' || c = '”'

/-- Whitespace recognised by JS `String.prototype.trim` restricted to the
ASCII range (after the `[^\x00-\x7F]` filter only ASCII characters remain, so
this restriction is exact at `sanitize`'s call site). -/
def isJsSpace (c : Char) : Bool :=
  c = ' ' || c = '\t' || c = '\n' || c = '\x0B' || c = '\x0C' || c = '\r'

/-- JS `String.prototype.trim` on an ASCII string: drop leading and trailing
whitespace. -/
def jsTrim (s : String) : String :=
  String.mk (((s.toList.dropWhile isJsSpace).reverse.dropWhile isJsSpace).reverse)

/-- The `sanitize` helper.  `!str` is true for `undefined` and for the empty
string; the first `replace` deletes the four smart quotes, the second deletes
every character whose code point is above `0x7F` (the regex range
`\x00-\x7F` keeps all of ASCII, control characters included). -/
def sanitize (str : Option String) : String :=
  match str with
  | none => ""
  | some s =>
    if s = "" then ""
    else jsTrim (String.mk ((s.toList.filter (fun c => !(isSmartQuote c))).filter
      (fun c => c.toNat ≤ 0x7F)))

/-- The sanitizer as the specification describes it (for comparison with the
code's `sanitize`): removes the four smart-quote code points and every
character outside the *printable* ASCII range `0x20`–`0x7E`, then trims. -/
def sanitizeClaim (str : Option String) : String :=
  match str with
  | none => ""
  | some s =>
    if s = "" then ""
    else jsTrim (String.mk ((s.toList.filter (fun c => !(isSmartQuote c))).filter
      (fun c => 0x20 ≤ c.toNat && c.toNat ≤ 0x7E)))

/-! ### Chat-completion response bodies

The workflow reads `body.choices?.[0]?.message?.content` out of both LLM
responses; every step of the optional chain may be absent. -/

structure ChatMessage where
  content : Option String

structure ChatChoice where
  message : Option ChatMessage

structure ChatBody where
  choices : Option (List ChatChoice)

/-- Models `body.choices?.[0]?.message?.content`. -/
def extractContent (b : ChatBody) : Option String :=
  match b.choices with
  | none => none
  | some cs =>
    match cs.head? with
    | none => none
    | some c =>
      match c.message with
      | none => none
      | some m => m.content

/-- Models `x || dflt` for an optional string `x`: JS falls back on `undefined` and
on the empty string (both falsy). -/
def orString (x : Option String) (dflt : String) : String :=
  match x with
  | none => dflt
  | some s => if s = "" then dflt else s

/-- The content the code considers usable: present and non-empty.  When this
is `none`, `orString` substitutes the default. -/
def usableContent (b : ChatBody) : Option String :=
  match extractContent b with
  | none => none
  | some s => if s = "" then none else some s

/-! ### Code-fence stripping

`content.replace(/```json\n?|\n?```/g, "")`: a global leftmost scan; the
first alternative greedily eats ```` ```json ```` plus an optional newline,
the second an optional newline plus ```` ``` ````. -/

def stripFenceAux (cs : List Char) : List Char :=
  match cs with
  | [] => []
  | c :: rest =>
    if ("```json\n".toList).isPrefixOf (c :: rest) then
      stripFenceAux ((c :: rest).drop 8)
    else if ("```json".toList).isPrefixOf (c :: rest) then
      stripFenceAux ((c :: rest).drop 7)
    else if ("\n```".toList).isPrefixOf (c :: rest) then
      stripFenceAux ((c :: rest).drop 4)
    else if ("```".toList).isPrefixOf (c :: rest) then
      stripFenceAux ((c :: rest).drop 3)
    else
      c :: stripFenceAux rest
termination_by cs.length
decreasing_by
  all_goals simp [List.length_drop]
  all_goals omega

def stripFence (s : String) : String :=
  String.mk (stripFenceAux s.toList)

/-! ### Plan parsing (STEP 1 aftermath)

```
try {
  const content = planResult.body.choices?.[0]?.message?.content || "[]";
  const cleanContent = content.replace(/```json\n?|\n?```/g, "");
  const parsed = JSON.parse(cleanContent);
  searchQueries = Array.isArray(parsed) ? parsed : (parsed.queries || []);
} catch (e) {
  searchQueries = [{ query: query, type: "what", context: "Fallback query" }];
}
searchQueries = searchQueries.slice(0, 10);
```
`JSON.parse` is a platform primitive; its outcome is an input of the model
(`none` = the parse threw). -/

/-- The catch-branch fallback plan. -/
def fallbackPlan (query : String) : Json :=
  .arr [.obj [("query", .str query), ("type", .str "what"), ("context", .str "Fallback query")]]

/-- The value assigned to `searchQueries` before the `slice`.
`parsed.queries` throws a `TypeError` on `parsed = null`, which the `try`
catches, landing in the fallback; on any non-null non-array value the access
yields `undefined` and `|| []` substitutes the empty array; a falsy `queries`
field (`null`, `false`, `0`, `""`) is likewise replaced by `[]`. -/
def dispatchPlan (parseResult : Option Json) (query : String) : Json :=
  match parseResult with
  | none => fallbackPlan query
  | some j =>
    match j with
    | .arr xs => .arr xs
    | .null => fallbackPlan query
    | .obj fields =>
      match lookupField fields "queries" with
      | some v => if jsTruthy v then v else .arr []
      | none => .arr []
    | _ => .arr []

/-- Models `searchQueries.slice(0, 10)` — defined only when the dispatched value is
an array; on any other value the later `slice`/`map` throws and the job
fails before any fan-out (`none`). -/
def subQueryPlan (parseResult : Option Json) (query : String) : Option (List Json) :=
  match dispatchPlan parseResult query with
  | .arr xs => some (xs.take 10)
  | _ => none

/-! ### The result store

`export const researchCache = new Map<string, any>();` — a JS `Map` keyed by
`researchId`.  `Map.set` overwrites in place, keeping insertion order;
`Map.get` returns the stored value or `undefined`. -/

/-- A cached job record.  The two writers store different object literals, so
every field apart from the key is optional; `none` models a property the
writer did not set (`undefined`). -/
structure StoreRecord where
  researchId : String
  userId : Option String
  status : Option String
  results : Option Json
  completedAt : Option String
  cachedAt : Option String

abbrev Store := List (String × StoreRecord)

/-- Models `researchCache.set(k, v)`: replace in place if the key exists, else
append. -/
def storeSet (s : Store) (k : String) (v : StoreRecord) : Store :=
  if s.any (fun p => p.1 = k) then
    s.map (fun p => if p.1 = k then (k, v) else p)
  else s ++ [(k, v)]

/-- Models `researchCache.get(k)`. -/
def storeGet (s : Store) (k : String) : Option StoreRecord :=
  (s.find? (fun p => p.1 = k)).map (fun p => p.2)

/-! ### Consolidation (STEP 4) -/

/-- One element of `blogs`: `{ query: searchQueries[i], content: ... }`. -/
structure GeneratedSection where
  query : Json
  content : String

/-- The sentinel substituted when a write-blog response has no usable
content. -/
def failSentinel : String := "Failed to generate content."

/-- The `resultData` object as built in the consolidate step. -/
structure ConsolidatedResult where
  researchId : String
  query : String
  blogs : List GeneratedSection
  completedAt : String

def GeneratedSection.toJson (g : GeneratedSection) : Json :=
  .obj [("query", g.query), ("content", .str g.content)]

def ConsolidatedResult.toJson (r : ConsolidatedResult) : Json :=
  .obj [("researchId", .str r.researchId), ("query", .str r.query),
        ("blogs", .arr (r.blogs.map GeneratedSection.toJson)),
        ("completedAt", .str r.completedAt)]

/-- Models `blogPosts.map((post, i) => ({query: searchQueries[i], content:
post.body.choices?.[0]?.message?.content || "Failed to generate content."}))`
written as explicit index recursion; an out-of-range `searchQueries[i]`
(impossible in the pipeline, where both lists have equal length) is modelled
as `null`. -/
def consolidateGo (qs : List Json) (i : Nat) : List ChatBody → List GeneratedSection
  | [] => []
  | post :: rest =>
    { query := (qs.get? i).getD Json.null,
      content := orString (extractContent post) failSentinel } :: consolidateGo qs (i + 1) rest

def consolidateBlogs (qs : List Json) (posts : List ChatBody) : List GeneratedSection :=
  consolidateGo qs 0 posts

/-- The record the consolidate step writes:
`researchCache.set(researchId, {researchId, userId, status: "completed",
results: resultData})` — it sets neither `completedAt` nor `cachedAt`. -/
def consolidateRecord (researchId userId : String) (r : ConsolidatedResult) : StoreRecord :=
  { researchId := researchId, userId := some userId, status := some "completed",
    results := some r.toJson, completedAt := none, cachedAt := none }

/-! ### The whole workflow handler

External calls are oracles: `jsonParse` is `JSON.parse` on the cleaned plan
text, `planBody` the STEP 1 response body, `searchBody i` the body of the
`search-<i>` call, `blogBody i` the body of `write-blog-<i>`, `now` the
timestamp taken in the consolidate step. -/

structure PipelineEnv where
  jsonParse : String → Option Json
  planBody : ChatBody
  searchBody : Nat → Json
  blogBody : Nat → ChatBody
  webhookSecret : Option String
  now : String

/-- Observable outcome of one workflow run, up to and including the
consolidate step's store write. -/
structure PipelineRun where
  searchQueries : List Json
  searchResults : List Json
  resultData : ConsolidatedResult
  store : Store

/-- Models `planResult.body.choices?.[0]?.message?.content || "[]"`. -/
def planContent (env : PipelineEnv) : String :=
  orString (extractContent env.planBody) "[]"

/-- The `searchQueries` list the fan-outs run over (`none` = the workflow
threw before any fan-out). -/
def plannedQueries (env : PipelineEnv) (query : String) : Option (List Json) :=
  subQueryPlan (env.jsonParse (stripFence (planContent env))) query

/-- STEP 2: `Promise.all(searchQueries.map((item, index) =>
context.call(`search-<index>`, ...)))` — one response body per sub-query,
index-aligned (`Promise.all` preserves order and length). -/
def searchFanOut (env : PipelineEnv) (qs : List Json) : List Json :=
  (List.range qs.length).map env.searchBody

/-- STEP 3: `Promise.all(searchResults.map((result, index) =>
context.call(`write-blog-<index>`, ...)))` — one response body per search
result. -/
def blogFanOut (env : PipelineEnv) (searchResults : List Json) : List ChatBody :=
  (List.range searchResults.length).map env.blogBody

/-- STEPS 2–4 given the plan: the two fan-outs, then the consolidate step
builds `resultData` and performs its store write. -/
def mkRun (env : PipelineEnv) (query userId researchId : String) (store : Store)
    (qs : List Json) : PipelineRun :=
  let searchResults := searchFanOut env qs
  let posts := blogFanOut env searchResults
  let blogs := consolidateBlogs qs posts
  let resultData : ConsolidatedResult :=
    { researchId := researchId, query := query, blogs := blogs, completedAt := env.now }
  { searchQueries := qs, searchResults := searchResults, resultData := resultData,
    store := storeSet store researchId (consolidateRecord researchId userId resultData) }

/-- The workflow handler body, from request payload to the consolidate step's
store write.  (The subsequent webhook call is `deliverWebhook` below.) -/
def runPipeline (env : PipelineEnv) (query userId researchId : String) (store : Store) :
    Option PipelineRun :=
  match plannedQueries env query with
  | none => none
  | some qs => some (mkRun env query userId researchId store qs)

/-! ### Webhook delivery and receiver -/

/-- The webhook receiver's input, as its `WebhookPayload` interface declares
it; optional fields model properties absent from the delivered JSON. -/
structure WebhookPayload where
  researchId : String
  userId : Option String
  status : Option String
  results : Option Json
  completedAt : Option String
  secret : Option String

/-- What the pipeline actually sends: `{...finalContent, secret}` where
`finalContent = resultData = {researchId, query, blogs, completedAt}` — the
body carries no `userId`, `status` or `results` property (the extra `query`
and `blogs` properties are never read by the receiver). -/
def notifierPayload (r : ConsolidatedResult) (secret : Option String) : WebhookPayload :=
  { researchId := r.researchId, userId := none, status := none, results := none,
    completedAt := some r.completedAt, secret := secret }

/-- The record the webhook receiver writes:
`{researchId, userId, status, results, completedAt, cachedAt: now}` copied
verbatim from the payload. -/
def webhookRecord (p : WebhookPayload) (now : String) : StoreRecord :=
  { researchId := p.researchId, userId := p.userId, status := p.status,
    results := p.results, completedAt := p.completedAt, cachedAt := some now }

/-- The webhook receiver `POST` handler on an already-parsed JSON payload
(a body that fails `request.json()` yields a 500 with no store access and is
outside every claim): `401` on secret mismatch with no store mutation, else
the store write followed by `200 {ok: true, researchId}`. -/
def webhookPOST (serverSecret : Option String) (p : WebhookPayload) (now : String)
    (store : Store) : (Nat × Json) × Store :=
  if p.secret ≠ serverSecret then
    ((401, .obj [("error", .str "Unauthorized")]), store)
  else
    ((200, .obj [("ok", .bool true), ("researchId", .str p.researchId)]),
     storeSet store p.researchId (webhookRecord p now))

/-- The pipeline's final step: deliver `{...finalContent, secret}` to the
webhook receiver (same-process deployment: sender and receiver read the same
`WEBHOOK_SECRET`). -/
def deliverWebhook (env : PipelineEnv) (r : ConsolidatedResult) (now : String)
    (store : Store) : (Nat × Json) × Store :=
  webhookPOST env.webhookSecret (notifierPayload r env.webhookSecret) now store

/-! ### The status-poll endpoint -/

/-- Serialization (`JSON.stringify`) of a store record: properties appear in the order the
writers list them and `undefined`-valued properties are omitted. -/
def StoreRecord.toJson (r : StoreRecord) : Json :=
  .obj ([("researchId", Json.str r.researchId)]
    ++ (match r.userId with | some u => [("userId", Json.str u)] | none => [])
    ++ (match r.status with | some st => [("status", Json.str st)] | none => [])
    ++ (match r.results with | some res => [("results", res)] | none => [])
    ++ (match r.completedAt with | some t => [("completedAt", Json.str t)] | none => [])
    ++ (match r.cachedAt with | some t => [("cachedAt", Json.str t)] | none => []))

/-- The poll `GET` handler: status code and JSON body.  A totally-defined
function — in particular it never throws.  (`researchId = ""` models the
falsy-param guard; a real route match always supplies a non-empty path
segment.) -/
def pollGET (researchId : String) (store : Store) : Nat × Json :=
  if researchId = "" then
    (400, .obj [("error", .str "Research ID is required")])
  else
    match storeGet store researchId with
    | none =>
      (404, .obj [("error", .str "Research not found or still processing"),
                  ("researchId", .str researchId), ("status", .str "processing")])
    | some r => (200, r.toJson)

/-! ## Lemma layer -/

theorem consolidateGo_length (qs : List Json) (posts : List ChatBody) (i : Nat) :
    (consolidateGo qs i posts).length = posts.length := by
  induction posts generalizing i with
  | nil => rfl
  | cons post rest ih => simp [consolidateGo, ih]

theorem consolidateGo_get? (qs : List Json) (posts : List ChatBody) (i j : Nat) :
    (consolidateGo qs i posts).get? j = (posts.get? j).map (fun post =>
      { query := (qs.get? (i + j)).getD Json.null,
        content := orString (extractContent post) failSentinel }) := by
  induction posts generalizing i j with
  | nil => simp [consolidateGo]
  | cons post rest ih =>
    cases j with
    | zero => simp [consolidateGo]
    | succ j =>
      have hidx : (i + 1) + j = i + (j + 1) := by omega
      have := ih (i + 1) j
      rw [hidx] at this
      simpa [consolidateGo] using this

theorem consolidateGo_cons (qs : List Json) (i : Nat) (post : ChatBody) (rest : List ChatBody) :
    consolidateGo qs i (post :: rest) =
      { query := (qs.get? i).getD Json.null,
        content := orString (extractContent post) failSentinel } :: consolidateGo qs (i + 1) rest :=
  rfl

theorem consolidateGo_map_query (posts : List ChatBody) (qs : List Json) (i : Nat)
    (h : qs.length = i + posts.length) :
    (consolidateGo qs i posts).map GeneratedSection.query = qs.drop i := by
  induction posts generalizing i with
  | nil =>
    have hle : qs.length ≤ i := by simp at h; omega
    rw [List.drop_eq_nil_of_le hle]
    rfl
  | cons post rest ih =>
    have hi' : i < qs.length := by simp at h; omega
    have hget : qs.get? i = some (qs.get ⟨i, hi'⟩) := List.get?_eq_get hi'
    have hdrop : qs.drop i = qs.get ⟨i, hi'⟩ :: qs.drop (i + 1) := by
      simp only [List.get_eq_getElem]
      exact List.drop_eq_getElem_cons hi'
    have hih : (consolidateGo qs (i + 1) rest).map GeneratedSection.query = qs.drop (i + 1) := by
      apply ih
      simp at h ⊢
      omega
    rw [consolidateGo_cons, List.map_cons, hih, hget, hdrop]
    rfl

theorem consolidate_map_query (qs : List Json) (posts : List ChatBody)
    (h : posts.length = qs.length) :
    (consolidateBlogs qs posts).map GeneratedSection.query = qs := by
  have := consolidateGo_map_query posts qs 0 (by omega)
  simpa [consolidateBlogs] using this

theorem find?_replace (l : Store) (k : String) (v : StoreRecord)
    (h : l.any (fun p => p.1 = k) = true) :
    (l.map (fun p => if p.1 = k then (k, v) else p)).find? (fun p => p.1 = k) = some (k, v) := by
  induction l with
  | nil => simp at h
  | cons p l ih =>
    by_cases hp : p.1 = k
    · have hhead : (if p.1 = k then (k, v) else p) = (k, v) := if_pos hp
      simp only [List.map_cons, hhead]
      rw [List.find?_cons_of_pos _ (by simp)]
    · have h' : l.any (fun p => p.1 = k) = true := by
        simp only [List.any_cons, Bool.or_eq_true, decide_eq_true_eq] at h
        rcases h with h1 | h2
        · exact absurd h1 hp
        · simpa using h2
      have hhead : (if p.1 = k then (k, v) else p) = p := if_neg hp
      simp only [List.map_cons, hhead]
      rw [List.find?_cons_of_neg _ (by simp [hp])]
      exact ih h'

theorem find?_append_single (l : Store) (k : String) (v : StoreRecord)
    (h : l.any (fun p => p.1 = k) = false) :
    (l ++ [(k, v)]).find? (fun p => p.1 = k) = some (k, v) := by
  induction l with
  | nil =>
    simp only [List.nil_append]
    rw [List.find?_cons_of_pos _ (by simp)]
  | cons p l ih =>
    simp only [List.any_cons, Bool.or_eq_false_iff, decide_eq_false_iff_not] at h
    simp only [List.cons_append]
    rw [List.find?_cons_of_neg _ (by simp [h.1])]
    exact ih (by simpa using h.2)

/-- Setting then getting the same key on the store yields the just-written value. -/
theorem storeGet_storeSet_self (s : Store) (k : String) (v : StoreRecord) :
    storeGet (storeSet s k v) k = some v := by
  unfold storeSet storeGet
  by_cases h : s.any (fun p => p.1 = k)
  · rw [if_pos h, find?_replace s k v h]
    rfl
  · rw [if_neg h, find?_append_single s k v (Bool.eq_false_iff.mpr h)]
    rfl

theorem toList_mk (cs : List Char) : (String.mk cs).toList = cs := rfl

theorem mem_of_mem_jsTrim {s : String} {c : Char} (h : c ∈ (jsTrim s).toList) :
    c ∈ s.toList := by
  unfold jsTrim at h
  rw [toList_mk] at h
  have h1 := List.mem_reverse.mp h
  have h2 := (List.dropWhile_sublist (l := (s.toList.dropWhile isJsSpace).reverse)
    isJsSpace).subset h1
  have h3 := List.mem_reverse.mp h2
  exact (List.dropWhile_sublist isJsSpace).subset h3

theorem head?_dropWhile_all (p : Char → Bool) (l : List Char) :
    ((l.dropWhile p).head?).all (fun c => !(p c)) = true := by
  induction l with
  | nil => rfl
  | cons c l ih =>
    rw [List.dropWhile_cons]
    by_cases h : p c
    · simpa [h] using ih
    · simp [h]

theorem head?_jsTrim_all (s : String) :
    (((jsTrim s).toList).head?).all (fun c => !(isJsSpace c)) = true := by
  show ((((s.toList.dropWhile isJsSpace).reverse.dropWhile isJsSpace).reverse).head?).all
    (fun c => !(isJsSpace c)) = true
  obtain ⟨pre, hpre⟩ :=
    (List.dropWhile_suffix (l := (s.toList.dropWhile isJsSpace).reverse) isJsSpace)
  have ht : ((s.toList.dropWhile isJsSpace).reverse.dropWhile isJsSpace).reverse
      ++ pre.reverse = s.toList.dropWhile isJsSpace := by
    have := congrArg List.reverse hpre
    simpa [List.reverse_append] using this
  cases hcase : ((s.toList.dropWhile isJsSpace).reverse.dropWhile isJsSpace).reverse with
  | nil => simp [hcase]
  | cons d ds =>
    have h1 : (s.toList.dropWhile isJsSpace).head? = some d := by
      rw [← ht, hcase]
      rfl
    have h2 := head?_dropWhile_all isJsSpace s.toList
    rw [h1] at h2
    simpa [hcase] using h2

theorem revhead?_jsTrim_all (s : String) :
    (((jsTrim s).toList).reverse.head?).all (fun c => !(isJsSpace c)) = true := by
  show (((((s.toList.dropWhile isJsSpace).reverse.dropWhile isJsSpace).reverse).reverse).head?).all
    (fun c => !(isJsSpace c)) = true
  rw [List.reverse_reverse]
  exact head?_dropWhile_all _ _

/-! ### Pipeline structure lemmas -/

theorem runPipeline_inv {env : PipelineEnv} {query userId researchId : String} {store : Store}
    {run : PipelineRun} (h : runPipeline env query userId researchId store = some run) :
    ∃ qs, plannedQueries env query = some qs ∧
      run = mkRun env query userId researchId store qs := by
  unfold runPipeline at h
  cases hq : plannedQueries env query with
  | none => rw [hq] at h; cases h
  | some qs => rw [hq] at h; exact ⟨qs, rfl, (Option.some.inj h).symm⟩

theorem mkRun_searchQueries (env : PipelineEnv) (query userId researchId : String)
    (store : Store) (qs : List Json) :
    (mkRun env query userId researchId store qs).searchQueries = qs := rfl

theorem mkRun_blogs (env : PipelineEnv) (query userId researchId : String)
    (store : Store) (qs : List Json) :
    (mkRun env query userId researchId store qs).resultData.blogs =
      consolidateBlogs qs (blogFanOut env (searchFanOut env qs)) := rfl

theorem blogFanOut_searchFanOut_length (env : PipelineEnv) (qs : List Json) :
    (blogFanOut env (searchFanOut env qs)).length = qs.length := by
  simp [blogFanOut, searchFanOut]

theorem blogFanOut_searchFanOut_get? (env : PipelineEnv) (qs : List Json) (i : Nat)
    (hi : i < qs.length) :
    (blogFanOut env (searchFanOut env qs)).get? i = some (env.blogBody i) := by
  simp [blogFanOut, searchFanOut, List.get?_map, List.get?_range, hi]

theorem subQueryPlan_length {pr : Option Json} {q : String} {qs : List Json}
    (h : subQueryPlan pr q = some qs) : qs.length ≤ 10 := by
  unfold subQueryPlan at h
  split at h
  · cases h
    exact List.length_take_le 10 _
  · cases h

theorem orString_of_usable_none {b : ChatBody} (h : usableContent b = none) :
    orString (extractContent b) failSentinel = failSentinel := by
  unfold usableContent at h
  unfold orString
  cases hx : extractContent b with
  | none => rfl
  | some s =>
    rw [hx] at h
    by_cases hs : s = ""
    · simp [hs]
    · simp [hs] at h

/-! ## Claim theorems -/

/-- Claim C2: for every pipeline run, the consolidated result's `blogs` list
has exactly the length of the sub-query plan, and `blogs[i].query` is
`searchQueries[i]` (the full `SubQuery` object) for every index — no
reordering. -/
theorem c2_blogs_index_aligned (env : PipelineEnv) (query userId researchId : String)
    (store : Store) (run : PipelineRun)
    (h : runPipeline env query userId researchId store = some run) :
    run.resultData.blogs.length = run.searchQueries.length ∧
    ∀ i : Nat, (run.resultData.blogs.get? i).map GeneratedSection.query =
      run.searchQueries.get? i := by
  obtain ⟨qs, hq, hrun⟩ := runPipeline_inv h
  subst hrun
  rw [mkRun_blogs, mkRun_searchQueries]
  have hlen := blogFanOut_searchFanOut_length env qs
  have hmap := consolidate_map_query qs _ hlen
  constructor
  · have := congrArg List.length hmap
    simpa using this
  · intro i
    rw [← List.get?_map, hmap]

/-- A concrete environment used to instantiate the pipeline theorems: the
planner returns one sub-query, every search returns an empty organic list,
and every write-blog call returns an empty content string. -/
def envA : PipelineEnv :=
  { jsonParse := fun _ => some (Json.arr [Json.obj
      [("query", Json.str "what is X"), ("type", Json.str "what"), ("context", Json.str "c")]]),
    planBody := { choices := some [{ message := some { content := some "[...]" } }] },
    searchBody := fun _ => Json.obj [("organic_results", Json.arr [])],
    blogBody := fun _ => { choices := some [{ message := some { content := some "" } }] },
    webhookSecret := some "hook-secret",
    now := "2026-01-01T00:00:00.000Z" }

def qsA : List Json :=
  [Json.obj [("query", Json.str "what is X"), ("type", Json.str "what"), ("context", Json.str "c")]]

theorem c2_blogs_index_aligned_check :
    (mkRun envA "topic" "user-1" "research-1" [] qsA).resultData.blogs.length =
      (mkRun envA "topic" "user-1" "research-1" [] qsA).searchQueries.length :=
  (c2_blogs_index_aligned envA "topic" "user-1" "research-1" [] _ rfl).1

/-- Claim C4: a content-generation fan-out item whose response body yields no
usable `content` gets the exact sentinel string `"Failed to generate
content."`, and the job still reaches consolidation (a full run exists)
regardless of how many sections degraded. -/
theorem c4_failed_sentinel (env : PipelineEnv) (query userId researchId : String)
    (store : Store) (qs : List Json) (hplan : plannedQueries env query = some qs) :
    ∃ run, runPipeline env query userId researchId store = some run ∧
      ∀ i, i < run.resultData.blogs.length → usableContent (env.blogBody i) = none →
        (run.resultData.blogs.get? i).map GeneratedSection.content = some failSentinel := by
  refine ⟨mkRun env query userId researchId store qs, ?_, ?_⟩
  · unfold runPipeline
    rw [hplan]
  · intro i hi hfail
    rw [mkRun_blogs] at hi ⊢
    have hlen' : (consolidateBlogs qs (blogFanOut env (searchFanOut env qs))).length
        = (blogFanOut env (searchFanOut env qs)).length := consolidateGo_length qs _ 0
    have hi' : i < qs.length := by
      rw [hlen', blogFanOut_searchFanOut_length] at hi
      exact hi
    unfold consolidateBlogs
    rw [consolidateGo_get?, blogFanOut_searchFanOut_get? env qs i hi']
    simp only [Option.map_some']
    rw [orString_of_usable_none hfail]

theorem c4_failed_sentinel_check :
    ∃ run, runPipeline envA "topic" "user-1" "research-1" [] = some run ∧
      ∀ i, i < run.resultData.blogs.length → usableContent (envA.blogBody i) = none →
        (run.resultData.blogs.get? i).map GeneratedSection.content = some failSentinel :=
  c4_failed_sentinel envA "topic" "user-1" "research-1" [] qsA rfl

/-- Claim C6: every plan actually used downstream (parsed or fallback) is
truncated to at most 10 sub-queries before the fan-outs. -/
theorem c6_plan_capped (env : PipelineEnv) (query userId researchId : String)
    (store : Store) (run : PipelineRun)
    (h : runPipeline env query userId researchId store = some run) :
    run.searchQueries.length ≤ 10 := by
  obtain ⟨qs, hq, hrun⟩ := runPipeline_inv h
  subst hrun
  rw [mkRun_searchQueries]
  unfold plannedQueries at hq
  exact subQueryPlan_length hq

theorem c6_plan_capped_check :
    (mkRun envA "topic" "user-1" "research-1" [] qsA).searchQueries.length ≤ 10 :=
  c6_plan_capped envA "topic" "user-1" "research-1" [] _ rfl

/-- Claim C5, counterexample: a successfully parsed object that HAS a
`queries` field whose value is `null` does not make the plan that field —
`parsed.queries || []` discards the falsy value and yields the empty plan, so
"if it is an object with a `queries` field that field is used" fails at
`{"queries": null}`. -/
theorem c5_queries_field_cex :
    lookupField [("queries", Json.null)] "queries" = some Json.null ∧
    dispatchPlan (some (Json.obj [("queries", Json.null)])) "solid state batteries" =
      Json.arr [] ∧
    Json.arr [] ≠ Json.null := by
  refine ⟨rfl, rfl, ?_⟩
  intro h
  cases h

/-- Claim C5 (amended): after stripping a code-fence, an array parse is used
directly; an object whose `queries` field holds a truthy value contributes
that field (a falsy `queries` value, like an absent one, yields the empty
plan); and on any JSON parse failure the plan is the single fallback element
whose `query` is the original input and whose `type` is `"what"` — the parse
error never propagates (`dispatchPlan` is total). -/
theorem c5_plan_parsing (pr : Option Json) (q : String) :
    (∀ xs, pr = some (Json.arr xs) → dispatchPlan pr q = Json.arr xs) ∧
    (∀ fields v, pr = some (Json.obj fields) → lookupField fields "queries" = some v →
      jsTruthy v = true → dispatchPlan pr q = v) ∧
    (pr = none → ∃ e, dispatchPlan pr q = Json.arr [e] ∧
      jsonField e "query" = some (Json.str q) ∧
      jsonField e "type" = some (Json.str "what")) := by
  refine ⟨?_, ?_, ?_⟩
  · intro xs hx
    subst hx
    rfl
  · intro fields v hx hlook htruthy
    subst hx
    show (match lookupField fields "queries" with
      | some v => if jsTruthy v then v else Json.arr []
      | none => Json.arr []) = v
    rw [hlook]
    show (if jsTruthy v = true then v else Json.arr []) = v
    rw [if_pos htruthy]
  · intro hx
    subst hx
    exact ⟨_, rfl, rfl, rfl⟩

theorem c5_plan_parsing_check :
    dispatchPlan (some (Json.obj [("queries", Json.arr [Json.str "who invented X"])])) "t" =
      Json.arr [Json.str "who invented X"] :=
  (c5_plan_parsing (some (Json.obj [("queries", Json.arr [Json.str "who invented X"])])) "t").2.1
    [("queries", Json.arr [Json.str "who invented X"])] (Json.arr [Json.str "who invented X"])
    rfl rfl rfl

/-- Claim C10, counterexample: the JSON text `null` parses successfully to a
non-array value without a `queries` field, yet the plan is NOT the empty
list: `parsed.queries` throws a `TypeError` on `null`, the `catch` runs, and
the single-element fallback plan is used. -/
theorem c10_parsed_null_cex :
    dispatchPlan (some Json.null) "solid state batteries" =
      fallbackPlan "solid state batteries" ∧
    fallbackPlan "solid state batteries" ≠ Json.arr [] := by
  refine ⟨rfl, ?_⟩
  intro h
  injection h with h'
  cases h'

/-- Claim C10 (amended): a successfully parsed non-array, non-`null` value
without a `queries` field yields the empty plan: no search or
content-generation step runs and the job still completes, storing a
`completed` record whose `blogs` array is empty.  (Parsed `null` instead
falls to the single-element fallback via the thrown property access.) -/
theorem c10_nonarray_empty_plan (j : Json) (q : String)
    (hnull : j ≠ Json.null)
    (harr : ∀ xs, j ≠ Json.arr xs)
    (hq : ∀ fields, j = Json.obj fields → lookupField fields "queries" = none) :
    dispatchPlan (some j) q = Json.arr [] ∧
    ∀ (env : PipelineEnv) (userId researchId : String) (store : Store),
      env.jsonParse (stripFence (planContent env)) = some j →
      ∃ run, runPipeline env q userId researchId store = some run ∧
        run.searchQueries = [] ∧ run.resultData.blogs = [] ∧
        (storeGet run.store researchId).map StoreRecord.status = some (some "completed") := by
  have hdisp : dispatchPlan (some j) q = Json.arr [] := by
    cases j with
    | null => exact absurd rfl hnull
    | arr xs => exact absurd rfl (harr xs)
    | obj fields =>
      show (match lookupField fields "queries" with
        | some v => if jsTruthy v then v else Json.arr []
        | none => Json.arr []) = Json.arr []
      rw [hq fields rfl]
    | bool b => rfl
    | num n => rfl
    | str s => rfl
  refine ⟨hdisp, ?_⟩
  intro env userId researchId store hparse
  have hplan : plannedQueries env q = some [] := by
    unfold plannedQueries
    rw [hparse]
    unfold subQueryPlan
    rw [hdisp]
    rfl
  refine ⟨mkRun env q userId researchId store [], ?_, rfl, rfl, ?_⟩
  · unfold runPipeline
    rw [hplan]
  · show (storeGet (storeSet store researchId _) researchId).map StoreRecord.status = _
    rw [storeGet_storeSet_self]
    rfl

/-- A planner environment whose (cleaned) output parses to the JSON number
`5`: non-array, non-null, no `queries` field. -/
def envNum : PipelineEnv :=
  { jsonParse := fun _ => some (Json.num 5),
    planBody := { choices := none },
    searchBody := fun _ => Json.null,
    blogBody := fun _ => { choices := none },
    webhookSecret := none,
    now := "2026-01-01T00:00:00.000Z" }

theorem c10_nonarray_empty_plan_check :
    ∃ run, runPipeline envNum "topic" "u" "research-1" [] = some run ∧
      run.searchQueries = [] ∧ run.resultData.blogs = [] ∧
      (storeGet run.store "research-1").map StoreRecord.status = some (some "completed") :=
  (c10_nonarray_empty_plan (Json.num 5) "topic" (by intro h; cases h)
    (by intro xs h; cases h) (by intro fields h; cases h)).2 envNum "u" "research-1" [] rfl

/-- Claim C7: the webhook receiver answers `401` and leaves the store
untouched exactly when the payload's `secret` differs from the server-held
secret; on a match it performs the store write and answers
`200 {ok: true, researchId}`.  (Secrets are compared with `!==` on
possibly-absent values, modelled as `Option String` equality.) -/
theorem c7_webhook_auth (serverSecret : Option String) (p : WebhookPayload) (now : String)
    (store : Store) :
    (p.secret ≠ serverSecret →
      webhookPOST serverSecret p now store =
        ((401, Json.obj [("error", Json.str "Unauthorized")]), store)) ∧
    (p.secret = serverSecret →
      webhookPOST serverSecret p now store =
        ((200, Json.obj [("ok", Json.bool true), ("researchId", Json.str p.researchId)]),
         storeSet store p.researchId (webhookRecord p now))) := by
  constructor
  · intro h
    unfold webhookPOST
    rw [if_pos h]
  · intro h
    unfold webhookPOST
    rw [if_neg (by simp [h])]

def payloadWrong : WebhookPayload :=
  { researchId := "research-1", userId := none, status := none, results := none,
    completedAt := none, secret := some "wrong" }

theorem c7_webhook_auth_check :
    webhookPOST (some "hook-secret") payloadWrong "2026-01-01T00:00:01.000Z" [] =
      ((401, Json.obj [("error", Json.str "Unauthorized")]), []) :=
  (c7_webhook_auth (some "hook-secret") payloadWrong "2026-01-01T00:00:01.000Z" []).1
    (by decide)

/-- Claim C8: polling a `researchId` answers `200` with the stored job
record when the id is in the result store and `404` with a body whose
`status` field is `"processing"` when it is absent; the handler is a total
function (it never throws) and the 404 body carries no `results` field. -/
theorem c8_poll_contract (researchId : String) (store : Store) (hid : researchId ≠ "") :
    (storeGet store researchId = none →
      pollGET researchId store =
        (404, Json.obj [("error", Json.str "Research not found or still processing"),
                        ("researchId", Json.str researchId),
                        ("status", Json.str "processing")]) ∧
      jsonField (pollGET researchId store).2 "status" = some (Json.str "processing") ∧
      jsonField (pollGET researchId store).2 "results" = none) ∧
    (∀ rec, storeGet store researchId = some rec →
      pollGET researchId store = (200, rec.toJson)) := by
  constructor
  · intro h
    have hresp : pollGET researchId store =
        (404, Json.obj [("error", Json.str "Research not found or still processing"),
                        ("researchId", Json.str researchId),
                        ("status", Json.str "processing")]) := by
      unfold pollGET
      rw [if_neg hid, h]
    refine ⟨hresp, ?_, ?_⟩
    · rw [hresp]
      rfl
    · rw [hresp]
      rfl
  · intro rec h
    unfold pollGET
    rw [if_neg hid, h]

theorem c8_poll_contract_check :
    pollGET "research-1" [] =
      (404, Json.obj [("error", Json.str "Research not found or still processing"),
                      ("researchId", Json.str "research-1"),
                      ("status", Json.str "processing")]) :=
  (((c8_poll_contract "research-1" [] (by decide)).1) rfl).1

/-! ### Concrete double-write scenario (claims C1 and C9)

The pipeline's own flow on one job: the consolidate step writes its record,
then the webhook call delivers `{...finalContent, secret}` to the receiver,
which overwrites the record with one built from `payload.userId`,
`payload.status`, `payload.results` — properties the notifier never sends. -/

def demoResult : ConsolidatedResult :=
  { researchId := "research-1700000000000-abc1234",
    query := "Future of Solid State Batteries",
    blogs := [{ query := Json.obj [("query", Json.str "what is a solid state battery"),
                                   ("type", Json.str "what"), ("context", Json.str "definition")],
                content := "A solid state battery is..." }],
    completedAt := "2026-01-01T00:00:00.000Z" }

def demoSecret : Option String := some "hook-secret"

/-- Store after the consolidate step's write. -/
def demoStore1 : Store :=
  storeSet [] demoResult.researchId
    (consolidateRecord demoResult.researchId "user-1" demoResult)

/-- Store after the webhook call delivers the notifier payload on top. -/
def demoStore2 : Store :=
  (webhookPOST demoSecret (notifierPayload demoResult demoSecret)
    "2026-01-01T00:00:01.000Z" demoStore1).2

/-- Claim C1 evaluated at the failing input: the two paths do NOT perform the
same store write.  The consolidate write stores `status = "completed"` and
the full `results`; the webhook-delivered write (the notifier's own payload!)
stores a record whose `status` and `results` are absent, so consolidate-then-
webhook leaves a different observable state than the consolidate write
alone. -/
theorem c1_double_write_diverges :
    (storeGet demoStore1 demoResult.researchId).map StoreRecord.status =
      some (some "completed") ∧
    (storeGet demoStore1 demoResult.researchId).map StoreRecord.results =
      some (some demoResult.toJson) ∧
    (storeGet demoStore2 demoResult.researchId).map StoreRecord.status = some none ∧
    (storeGet demoStore2 demoResult.researchId).map StoreRecord.results = some none ∧
    (storeGet demoStore2 demoResult.researchId).map StoreRecord.status ≠
      (storeGet demoStore1 demoResult.researchId).map StoreRecord.status := by
  refine ⟨rfl, rfl, rfl, rfl, ?_⟩
  decide

/-- A webhook payload carrying `status: "failed"` with the correct secret. -/
def payloadFailed : WebhookPayload :=
  { researchId := "research-1", userId := some "u", status := some "failed",
    results := none, completedAt := some "2026-01-01T00:00:02.000Z",
    secret := demoSecret }

/-- Claim C9 evaluated at the failing inputs: after the subsystem's own
webhook delivery the poll endpoint returns `200` with a record that has NO
`status` field at all (neither `"processing"` nor `"completed"`); and the
webhook receiver stores `payload.status` verbatim, so a `"failed"` status is
storable and observable. -/
theorem c9_status_not_two_valued :
    (pollGET demoResult.researchId demoStore2).1 = 200 ∧
    jsonField (pollGET demoResult.researchId demoStore2).2 "status" = none ∧
    jsonField (pollGET demoResult.researchId demoStore1).2 "status" =
      some (Json.str "completed") ∧
    (storeGet (webhookPOST demoSecret payloadFailed
        "2026-01-01T00:00:03.000Z" []).2 "research-1").map StoreRecord.status =
      some (some "failed") :=
  ⟨rfl, rfl, rfl, rfl⟩

/-- Claim C3, counterexample: `sanitize` keeps ASCII control characters
(the regex `[^\x00-\x7F]` removes only code points above `0x7F`), while the
claim's "removes every character outside the printable ASCII range" would
delete them: the two disagree at `"a\x01b"`. -/
theorem c3_sanitize_cex :
    sanitize (some "a\x01b") = "a\x01b" ∧
    sanitizeClaim (some "a\x01b") = "ab" ∧
    sanitize (some "a\x01b") ≠ sanitizeClaim (some "a\x01b") := by
  refine ⟨by decide, by decide, by decide⟩

/-- Claim C3 (amended): `sanitize` returns `""` for absent input; otherwise
it removes the four smart-quote code points and every character outside the
ASCII range (code point above `0x7F` — ASCII control characters are kept),
then trims leading and trailing whitespace; it is a pure total function, so
every output character is ASCII. -/
theorem c3_sanitize_ascii (str : Option String) :
    (str = none → sanitize str = "") ∧
    (sanitize str).toList.all (fun c => c.toNat ≤ 0x7F && !(isSmartQuote c)) = true ∧
    ((sanitize str).toList.head?).all (fun c => !(isJsSpace c)) = true ∧
    ((sanitize str).toList.reverse.head?).all (fun c => !(isJsSpace c)) = true := by
  cases str with
  | none => exact ⟨fun _ => rfl, rfl, rfl, rfl⟩
  | some s =>
    by_cases hs : s = ""
    · subst hs
      exact ⟨fun h => Option.noConfusion h, rfl, rfl, rfl⟩
    · have hdef : sanitize (some s) = jsTrim (String.mk
          ((s.toList.filter (fun c => !(isSmartQuote c))).filter
            (fun c => c.toNat ≤ 0x7F))) := by
        unfold sanitize
        exact if_neg hs
      refine ⟨fun h => Option.noConfusion h, ?_, ?_, ?_⟩
      · rw [hdef, List.all_eq_true]
        intro c hc
        have hmem := mem_of_mem_jsTrim hc
        rw [toList_mk] at hmem
        have h2 := List.mem_filter.mp hmem
        have h3 := List.mem_filter.mp h2.1
        simp only [Bool.and_eq_true]
        exact ⟨h2.2, h3.2⟩
      · rw [hdef]
        exact head?_jsTrim_all _
      · rw [hdef]
        exact revhead?_jsTrim_all _

theorem c3_sanitize_ascii_check :
    (sanitize (some "  a‘bé c  ")).toList.all
      (fun c => c.toNat ≤ 0x7F && !(isSmartQuote c)) = true :=
  (c3_sanitize_ascii (some "  a‘bé c  ")).2.1

end ResearchApp
